import Mathlib

/-!
Shallow embedding of the wasmtime sandbox host layer
(`client/executor/wasmtime/src/host.rs`, together with the `StoreData`
declaration and the allocator contract) of the `substrate` repository.

Machine integers (`u32`, `i32`, `i64`, pointers) are embedded as `Nat`/`Int`
with explicit wraparound where the source casts.  Fallible operations
(`sp_wasm_interface::Result<T> = Result<T, String>`) are embedded as a result
type that also records unwinding (a Rust panic propagating out of the
function), which `host.rs` manipulates explicitly via `catch_unwind` /
`resume_unwind`.  External collaborators whose code is outside this
repository slice (the wasmtime engine, the codec, the sandbox backend's
instantiation) enter the embedded functions as explicit outcome parameters,
so every theorem quantifies over all of their behaviours.
-/

namespace Host

/-- Result of one embedded host call: `ok` and `hostError` mirror
`Result<T, String>`; `panicked` marks a Rust panic unwinding out of the
call (observable in `instance_new`, which catches and re-raises it). -/
inductive HostCallResult (α : Type) where
  | ok (value : α)
  | hostError (msg : String)
  | panicked
  deriving DecidableEq, Repr

/-- True exactly on the `ok` constructor. -/
def HostCallResult.isOk {α : Type} : HostCallResult α → Bool
  | .ok _ => true
  | _ => false

/-- True exactly on the `hostError` constructor. -/
def HostCallResult.isHardError {α : Type} : HostCallResult α → Bool
  | .hostError _ => true
  | _ => false

/-- Embeds `sp_wasm_interface::Value`: wasm scalar values; floats are carried
as raw bit patterns (as in the source), so no floating-point arithmetic is
modelled. -/
inductive Value where
  | i32 (v : Int)
  | i64 (v : Int)
  | f32 (bits : Nat)
  | f64 (bits : Nat)
  deriving DecidableEq, Repr

/-- Embeds `wasmtime::Val` as far as this component inspects it: `I32`/`I64`
arguments and results, a null initialiser, and a catch-all for the remaining
engine value kinds (floats, references) that `host.rs` only ever treats as
"not an i64". -/
inductive WVal where
  | I32 (v : Int)
  | I64 (v : Int)
  | nullVal
  | otherVal
  deriving DecidableEq, Repr

/-- Embeds `wasmtime::Val::i64`: `some` exactly on a 64-bit integer value. -/
def WVal.i64 : WVal → Option Int
  | .I64 v => some v
  | _ => none

/-- A dispatch thunk (`wasmtime::Func`) is only stored, cloned, compared and
called through an explicit outcome parameter here, so an opaque tag suffices. -/
abbrev Func := Nat

/-- One entry of the wasmtime function table (`table.get` yields a
`wasmtime::Val`): either a funcref (possibly null) or some other value kind
(e.g. an externref). -/
inductive TableEntry where
  | funcRef (f : Option Func)
  | externRef
  deriving DecidableEq, Repr

/-- The module's function table, indexed by `table.get`; `none` past the end. -/
abbrev Table := List TableEntry

/-- Modelled from the spec: the freeing-bump allocator's internal state is an
external collaborator ("only its allocate/deallocate/stats contract is
consumed"), so it is embedded as an opaque state token. -/
structure FreeingBumpHeapAllocator where
  tag : Nat
  deriving DecidableEq, Repr

/-- Modelled from the spec: an exported global of a sandboxed instance
(`sc_executor_common::sandbox::SandboxInstance` is outside the repository
slice): a value together with its mutability. -/
structure GlobalEntry where
  value : Value
  isMutable : Bool
  deriving DecidableEq, Repr

/-- Modelled from the spec: a sandboxed instance as far as the host layer
observes it — its exported globals by name. -/
structure SandboxInstance where
  globals : List (String × GlobalEntry)
  deriving DecidableEq, Repr

/-- Modelled from the spec: `SandboxInstance::get_global_val` — `None` if the
named export is absent. -/
def SandboxInstance.get_global_val (inst : SandboxInstance) (name : String) :
    Option Value :=
  (inst.globals.lookup name).map (·.value)

/-- Modelled from the spec: `SandboxInstance::get_global_i64` — `None` if the
named export is absent or is not an `i64` global. -/
def SandboxInstance.get_global_i64 (inst : SandboxInstance) (name : String) :
    Option Int :=
  (inst.globals.lookup name).bind fun g =>
    match g.value with
    | .i64 v => some v
    | _ => none

/-- Modelled from the spec: `SandboxInstance::set_global_i64` — `Ok(None)` if
the named global is absent, `Ok(Some(..))` if it was set, and an error for
the remaining conditions (type mismatch or immutability, which the spec
groups coarsely). -/
def SandboxInstance.set_global_i64 (inst : SandboxInstance) (name : String)
    (v : Int) : Except Unit (Option SandboxInstance) :=
  match inst.globals.lookup name with
  | none => .ok none
  | some g =>
    match g.value with
    | .i64 _ =>
      if g.isMutable then
        .ok (some { globals :=
          inst.globals.map fun p =>
            if p.1 = name then (name, { g with value := Value.i64 v }) else p })
      else
        .error ()
    | _ => .error ()

/-- Modelled from the spec: a sandboxed linear memory
(`sc_executor_common::util::MemoryTransfer` backing store), as its byte
contents. -/
structure SandboxMemory where
  data : List Nat
  deriving DecidableEq, Repr

/-- Overwrite `data.length` bytes of `mem` starting at `address` (the raw
copy underlying every bounds-checked write in this layer). -/
def writeBytes (mem : List Nat) (address : Nat) (data : List Nat) : List Nat :=
  mem.take address ++ data ++ mem.drop (address + data.length)

/-- Modelled from the spec: `MemoryTransfer::read` on a sandboxed memory —
the range `[offset, offset+len)` must lie within the memory, otherwise the
read fails and nothing is copied. -/
def SandboxMemory.read (m : SandboxMemory) (offset len : Nat) :
    Except Unit (List Nat) :=
  if offset + len ≤ m.data.length then
    .ok ((m.data.drop offset).take len)
  else
    .error ()

/-- Modelled from the spec: `MemoryTransfer::write_from` on a sandboxed
memory — the range must lie within the memory, otherwise the write fails and
no byte is changed. -/
def SandboxMemory.write_from (m : SandboxMemory) (offset : Nat)
    (buf : List Nat) : Except Unit SandboxMemory :=
  if offset + buf.length ≤ m.data.length then
    .ok ⟨writeBytes m.data offset buf⟩
  else
    .error ()

/-- Modelled from the spec: the registry entry `instance_new` registers — a
sandboxed instance together with its dispatch thunk. -/
structure InstanceEntry where
  inst : SandboxInstance
  dispatch_thunk : Func
  deriving DecidableEq, Repr

/-- Modelled from the spec: `sc_executor_common::sandbox::Store` — sandboxed
instances and memories keyed by registry-assigned small integer ids that are
never reused while the entry is live. -/
structure SandboxStore where
  instances : List (Nat × InstanceEntry)
  next_instance_id : Nat
  memories : List (Nat × SandboxMemory)
  next_memory_id : Nat
  deriving DecidableEq, Repr

/-- The sandbox store `instance_new` starts a runtime entry with: empty. -/
def SandboxStore.empty : SandboxStore :=
  { instances := [], next_instance_id := 0, memories := [], next_memory_id := 0 }

/-- Modelled from the spec: `Store::instance` — lookup by id, a hard error
when the registry holds no such instance. -/
def SandboxStore.instance_ (s : SandboxStore) (id : Nat) :
    Except String InstanceEntry :=
  match s.instances.lookup id with
  | some e => .ok e
  | none => .error "instance with the given id is not found"

/-- Modelled from the spec: `Store::dispatch_thunk` — the dispatch thunk
recorded for an instance id, a hard error when the id is absent. -/
def SandboxStore.dispatch_thunk (s : SandboxStore) (id : Nat) :
    Except String Func :=
  match s.instances.lookup id with
  | some e => .ok e.dispatch_thunk
  | none => .error "dispatch thunk for the given id is not found"

/-- Modelled from the spec: `Store::memory` — lookup by id, a hard error when
the registry holds no such memory. -/
def SandboxStore.memory (s : SandboxStore) (id : Nat) :
    Except String SandboxMemory :=
  match s.memories.lookup id with
  | some m => .ok m
  | none => .error "memory with the given id is not found"

/-- Replace the memory stored under `id` (the persistent effect of
`memory_set` through the shared backing store). -/
def SandboxStore.setMemory (s : SandboxStore) (id : Nat) (m : SandboxMemory) :
    SandboxStore :=
  { s with memories := s.memories.map fun p => if p.1 = id then (id, m) else p }

/-- Modelled from the spec: `UnregisteredInstance::register` — the instance
is recorded with its dispatch thunk under a fresh id, which is returned. -/
def SandboxStore.register (s : SandboxStore) (inst : SandboxInstance)
    (thunk : Func) : Nat × SandboxStore :=
  (s.next_instance_id,
   { s with
      instances := s.instances ++ [(s.next_instance_id, ⟨inst, thunk⟩)],
      next_instance_id := s.next_instance_id + 1 })

/-- Embeds `HostState` (`host.rs` lines 47-56): the sandbox store and the
allocator sit in optionally-absent slots so they can be destructively taken
for the duration of an operation, plus the panic-message slot. -/
structure HostState where
  sandbox_store : Option SandboxStore
  allocator : Option FreeingBumpHeapAllocator
  panic_message : Option String
  deriving DecidableEq, Repr

/-- Embeds `HostState::take_panic_message`: returns the message, leaving
`None` in its place (`Option::take`). -/
def take_panic_message (st : HostState) : Option String × HostState :=
  (st.panic_message, { st with panic_message := none })

/-- Embeds `HostContext::register_panic_error_message`: stores the message in
the panic-message slot. -/
def register_panic_error_message (st : HostState) (message : String) :
    HostState :=
  { st with panic_message := some message }

/-- Modelled from the spec: `sp_sandbox::env::ERR_OK` — the ok status code.
The spec fixes the status vocabulary as distinct integers forming a stable
ABI; the numeric values live outside the repository slice, so the standard
wraparound encoding is used and only identity/distinctness of the codes is
relied on. -/
def ERR_OK : Nat := 0

/-- Modelled from the spec: `sp_sandbox::env::ERR_OUT_OF_BOUNDS` — the
out-of-bounds status code. -/
def ERR_OUT_OF_BOUNDS : Nat := 4294967295

/-- Modelled from the spec: `sp_sandbox::env::ERR_EXECUTION` — the
execution-error status code. -/
def ERR_EXECUTION : Nat := 4294967294

/-- Modelled from the spec: `sp_sandbox::env::ERR_MODULE` — the module-error
status code. -/
def ERR_MODULE : Nat := 4294967293

/-- Modelled from the spec: `sp_sandbox::env::ERROR_GLOBALS_OK` — the
globals-ok status code. -/
def ERROR_GLOBALS_OK : Nat := 0

/-- Modelled from the spec: `sp_sandbox::env::ERROR_GLOBALS_NOT_FOUND` — the
globals-not-found status code. -/
def ERROR_GLOBALS_NOT_FOUND : Nat := 4294967295

/-- Modelled from the spec: `sp_sandbox::env::ERROR_GLOBALS_OTHER` — the
globals-other status code. -/
def ERROR_GLOBALS_OTHER : Nat := 4294967294

/-- Modelled from the spec: `util::read_memory` — the bytes at
`[address, address+len)` of the calling module's linear memory, an error when
the range exceeds the memory bounds (validated before any copy). -/
def read_memory (mem : List Nat) (address len : Nat) :
    Except String (List Nat) :=
  if address + len ≤ mem.length then
    .ok ((mem.drop address).take len)
  else
    .error "memory read is out of bounds"

/-- Modelled from the spec: `util::write_memory_from` — writes `data` at
`address` of the calling module's linear memory, an error (and no partial
write) when the range exceeds the memory bounds. -/
def write_memory_from (mem : List Nat) (address : Nat) (data : List Nat) :
    Except String (List Nat) :=
  if address + data.length ≤ mem.length then
    .ok (writeBytes mem address data)
  else
    .error "memory write is out of bounds"

/-- Embeds `FunctionContext::read_memory_into` (`host.rs` lines 122-128),
which delegates to `util::read_memory_into`: the result is paired with the
destination buffer as it stands after the call, so that "no partial copy"
is an assertion about the second component. -/
def read_memory_into (mem : List Nat) (address : Nat) (dest : List Nat) :
    Except String Unit × List Nat :=
  if address + dest.length ≤ mem.length then
    (.ok (), (mem.drop address).take dest.length)
  else
    (.error "memory read is out of bounds", dest)

/-- Embeds `FunctionContext::write_memory` (`host.rs` lines 130-132), which
delegates to `util::write_memory_from`: the result is paired with the
calling module's memory as it stands after the call. -/
def write_memory (mem : List Nat) (address : Nat) (data : List Nat) :
    Except String Unit × List Nat :=
  match write_memory_from mem address data with
  | .ok mem2 => (.ok (), mem2)
  | .error e => (.error e, mem)

/-- Embeds `FunctionContext::allocate_memory` (`host.rs` lines 134-150).
The allocator is taken out of its slot (the source `expect`s it present; an
absent slot panics with the slot still empty), the external
`FreeingBumpHeapAllocator::allocate` runs against a memory view built from
the caller handle, and the (possibly mutated) allocator is stored back
unconditionally, on the error path too.  `allocateExt` is the external
allocator call: given the allocator state, the memory and the size it yields
the result plus the updated allocator and memory (its contract is
`Result`-typed, so it returns rather than unwinds). -/
def allocate_memory
    (allocateExt : FreeingBumpHeapAllocator → List Nat → Nat →
      Except String Nat × FreeingBumpHeapAllocator × List Nat)
    (size : Nat) (st : HostState) (mem : List Nat) :
    HostCallResult Nat × HostState × List Nat :=
  match st.allocator with
  | none => (.panicked, st, mem)
  | some alloc =>
    let st1 := { st with allocator := none }
    match allocateExt alloc mem size with
    | (res, alloc2, mem2) =>
      let st2 := { st1 with allocator := some alloc2 }
      match res with
      | .ok ptr => (.ok ptr, st2, mem2)
      | .error e => (.hostError e, st2, mem2)

/-- Embeds `FunctionContext::deallocate_memory` (`host.rs` lines 152-168):
same take/operate/unconditionally-restore discipline as `allocate_memory`,
with the external `FreeingBumpHeapAllocator::deallocate`. -/
def deallocate_memory
    (deallocateExt : FreeingBumpHeapAllocator → List Nat → Nat →
      Except String Unit × FreeingBumpHeapAllocator × List Nat)
    (ptr : Nat) (st : HostState) (mem : List Nat) :
    HostCallResult Unit × HostState × List Nat :=
  match st.allocator with
  | none => (.panicked, st, mem)
  | some alloc =>
    let st1 := { st with allocator := none }
    match deallocateExt alloc mem ptr with
    | (res, alloc2, mem2) =>
      let st2 := { st1 with allocator := some alloc2 }
      match res with
      | .ok _ => (.ok (), st2, mem2)
      | .error e => (.hostError e, st2, mem2)

/-- Embeds `Sandbox::memory_get` (`host.rs` lines 180-201): look the memory
up in the registry (a hard error when the id is absent); a failing read from
the sandboxed memory or a failing write into the calling module's memory
yields the out-of-bounds status code; otherwise the ok code.  Returns the
calling module's memory as it stands after the call. -/
def memory_get (store : SandboxStore) (callerMem : List Nat)
    (memory_id offset buf_ptr buf_len : Nat) :
    HostCallResult Nat × List Nat :=
  match store.memory memory_id with
  | .error e => (.hostError e, callerMem)
  | .ok sandboxed_memory =>
    match sandboxed_memory.read offset buf_len with
    | .error _ => (.ok ERR_OUT_OF_BOUNDS, callerMem)
    | .ok buffer =>
      match write_memory_from callerMem buf_ptr buffer with
      | .error _ => (.ok ERR_OUT_OF_BOUNDS, callerMem)
      | .ok mem2 => (.ok ERR_OK, mem2)

/-- Embeds `Sandbox::memory_set` (`host.rs` lines 203-224): look the memory
up in the registry (a hard error when the id is absent); a failing read from
the calling module's memory or a failing write into the sandboxed memory
yields the out-of-bounds status code; otherwise the ok code.  Returns the
registry as it stands after the call. -/
def memory_set (store : SandboxStore) (callerMem : List Nat)
    (memory_id offset val_ptr val_len : Nat) :
    HostCallResult Nat × SandboxStore :=
  match store.memory memory_id with
  | .error e => (.hostError e, store)
  | .ok sandboxed_memory =>
    match read_memory callerMem val_ptr val_len with
    | .error _ => (.ok ERR_OUT_OF_BOUNDS, store)
    | .ok buffer =>
      match sandboxed_memory.write_from offset buffer with
      | .error _ => (.ok ERR_OUT_OF_BOUNDS, store)
      | .ok m2 => (.ok ERR_OK, store.setMemory memory_id m2)

/-- Embeds `Sandbox::invoke` (`host.rs` lines 234-277).  External
collaborators enter as parameters: `decodedArgs` is the outcome of the codec
decode of the serialized arguments (`none` on decode failure — a hard
error); `invokeExt` is the outcome of `instance.invoke` on the looked-up
instance, its dispatch thunk and the state tag; `encodeReturnValue` is the
codec encoding of `ReturnValue::Value(..)` used inside `using_encoded`.
Control flow from the source: decode, instance lookup, dispatch-thunk lookup
(hard errors); a trapped execution yields the execution-error status; no
return value yields the ok status; a return value is encoded and, if it fits
`return_val_len`, written through `write_memory` into the calling module's
memory (an oversized value and a failed write are hard errors).  The calling
module's memory after the call is the second component. -/
def invoke (encodeReturnValue : Value → List Nat)
    (decodedArgs : Option (List Value))
    (invokeExt : SandboxInstance → Func → Nat → Except Unit (Option Value))
    (store : SandboxStore) (callerMem : List Nat)
    (instance_id : Nat) (return_val return_val_len state : Nat) :
    HostCallResult Nat × List Nat :=
  match decodedArgs with
  | none => (.hostError "Cannot decode serialized arguments for the invocation",
             callerMem)
  | some _args =>
    match store.instance_ instance_id with
    | .error e => (.hostError e, callerMem)
    | .ok entry =>
      match store.dispatch_thunk instance_id with
      | .error e => (.hostError e, callerMem)
      | .ok thunk =>
        match invokeExt entry.inst thunk state with
        | .error _ => (.ok ERR_EXECUTION, callerMem)
        | .ok none => (.ok ERR_OK, callerMem)
        | .ok (some val) =>
          let encoded := encodeReturnValue val
          if encoded.length > return_val_len then
            (.hostError "Return value buffer is too small", callerMem)
          else
            match write_memory callerMem return_val encoded with
            | (.error _, mem2) => (.hostError "cannot write return value", mem2)
            | (.ok _, mem2) => (.ok ERR_OK, mem2)

/-- Outcome of the external `store.instantiate` call inside `instance_new`:
a fresh (unregistered) instance, a trapped start function, any other
instantiation error, or a panic unwinding out of the guest code (which the
source intercepts with `catch_unwind`). -/
inductive InstantiateOutcome where
  | ok (inst : SandboxInstance)
  | errStartTrapped
  | errOther
  | panicked
  deriving DecidableEq, Repr

/-- Embeds `Sandbox::instance_new` (`host.rs` lines 285-348).  Steps from the
source: resolve the dispatch thunk from the module's function table (hard
errors when the table is absent, the index is out of bounds, the entry is
not a funcref, or the funcref is null); decode the guest environment against
the registry (`decodeEnv`, external — a failure yields the module-error
status code); destructively take the sandbox store out of the host state
(the source `expect`s it present); run the external instantiation
`instantiateExt` (which may mutate the store through reentrancy and may
panic) under `catch_unwind`; unconditionally put the (possibly mutated)
store back; re-raise a caught panic; register a fresh instance on success;
map a trapped start function to the execution-error status and any other
instantiation failure to the module-error status. -/
def instance_new (table : Option Table) (dispatch_thunk_id : Nat)
    (decodeEnv : SandboxStore → Except Unit Unit)
    (instantiateExt : SandboxStore → Func → Nat →
      InstantiateOutcome × SandboxStore)
    (state : Nat) (st : HostState) : HostCallResult Nat × HostState :=
  match table with
  | none => (.hostError "Runtime does not have a table; sandbox is unavailable",
             st)
  | some t =>
    match t[dispatch_thunk_id]? with
    | none => (.hostError "dispatch_thunk_id is out of bounds", st)
    | some (TableEntry.externRef) =>
      (.hostError "dispatch_thunk_idx should be a funcref", st)
    | some (TableEntry.funcRef none) =>
      (.hostError "dispatch_thunk_idx should point to actual func", st)
    | some (TableEntry.funcRef (some dispatch_thunk)) =>
      match st.sandbox_store with
      | none => (.panicked, st)
      | some store0 =>
        match decodeEnv store0 with
        | .error _ => (.ok ERR_MODULE, st)
        | .ok _ =>
          let st1 := { st with sandbox_store := none }
          match instantiateExt store0 dispatch_thunk state with
          | (outcome, store1) =>
            let st2 := { st1 with sandbox_store := some store1 }
            match outcome with
            | .panicked => (.panicked, st2)
            | .errStartTrapped => (.ok ERR_EXECUTION, st2)
            | .errOther => (.ok ERR_MODULE, st2)
            | .ok inst =>
              match store1.register inst dispatch_thunk with
              | (idx, store2) =>
                (.ok idx, { st2 with sandbox_store := some store2 })

/-- Embeds `Sandbox::get_global_val` (`host.rs` lines 350-359): instance
lookup failure is a hard error; otherwise the instance's global lookup,
`none` when the named export is absent. -/
def get_global_val (store : SandboxStore) (instance_idx : Nat)
    (name : String) : HostCallResult (Option Value) :=
  match store.instance_ instance_idx with
  | .error e => .hostError e
  | .ok entry => .ok (entry.inst.get_global_val name)

/-- Embeds `Sandbox::get_global_i64` (`host.rs` lines 361-370): instance
lookup failure is a hard error; otherwise the instance's i64-global lookup,
`none` when the named export is absent. -/
def get_global_i64 (store : SandboxStore) (instance_idx : Nat)
    (name : String) : HostCallResult (Option Int) :=
  match store.instance_ instance_idx with
  | .error e => .hostError e
  | .ok entry => .ok (entry.inst.get_global_i64 name)

/-- Embeds `Sandbox::set_global_i64` (`host.rs` lines 372-390): instance
lookup failure is a hard error; the inner `instance.set_global_i64` result
is mapped to the three globals status codes — `Ok(None)` to not-found,
`Ok(Some(..))` to ok, `Err(..)` to other. -/
def set_global_i64 (store : SandboxStore) (instance_idx : Nat)
    (name : String) (value : Int) : HostCallResult Nat :=
  match store.instance_ instance_idx with
  | .error e => .hostError e
  | .ok entry =>
    match entry.inst.set_global_i64 name value with
    | .ok none => .ok ERROR_GLOBALS_NOT_FOUND
    | .ok (some _) => .ok ERROR_GLOBALS_OK
    | .error _ => .ok ERROR_GLOBALS_OTHER

/-- The `u32 as i32` / `usize as i32` cast of the source: reduce modulo
2^32 and reinterpret as a signed 32-bit integer. -/
def toI32 (x : Nat) : Int :=
  if x % 4294967296 < 2147483648 then
    ((x % 4294967296 : Nat) : Int)
  else
    ((x % 4294967296 : Nat) : Int) - 4294967296

/-- The exact argument list `SandboxContext::invoke` passes to the dispatch
thunk (`host.rs` lines 436-445): arguments pointer, arguments length, state
tag, function index — four `I32`s in this order. -/
def dispatchThunkArgs (invoke_args_ptr invoke_args_len state func_idx : Nat) :
    List WVal :=
  [WVal.I32 (toI32 invoke_args_ptr), WVal.I32 (toI32 invoke_args_len),
   WVal.I32 (toI32 state), WVal.I32 (toI32 func_idx)]

/-- Embeds `SandboxContext::invoke` (`host.rs` lines 429-456).  `callExt`
is the external `wasmtime::Func::call` on the dispatch thunk: given the
argument list it either traps (an error carrying the engine's message,
which also covers a result-arity mismatch the engine rejects) or fills the
single result slot with a value.  A non-`I64` result value is reported as a
call error with the source's message. -/
def sandboxContext_invoke
    (callExt : List WVal → Except String WVal)
    (state : Nat) (invoke_args_ptr invoke_args_len func_idx : Nat) :
    Except String Int :=
  match callExt (dispatchThunkArgs invoke_args_ptr invoke_args_len state
      func_idx) with
  | .error err => .error err
  | .ok ret_val =>
    match ret_val.i64 with
    | some v => .ok v
    | none => .error "Supervisor function returned unexpected result!"

/-- A sandboxed instance with one mutable `i64` global `g`, used as a sample
registry inhabitant. -/
def sampleInstance : SandboxInstance :=
  { globals := [("g", { value := Value.i64 5, isMutable := true })] }

/-- A sample registry: one instance under id 0 (dispatch thunk 7) and one
4-byte memory under id 0. -/
def sampleStore : SandboxStore :=
  { instances := [(0, { inst := sampleInstance, dispatch_thunk := 7 })],
    next_instance_id := 1,
    memories := [(0, { data := [0, 0, 0, 0] })],
    next_memory_id := 1 }

/-- A sample host state with both slots present. -/
def sampleHostState : HostState :=
  { sandbox_store := some sampleStore,
    allocator := some { tag := 0 },
    panic_message := none }

theorem writeBytes_length (mem data : List Nat) (address : Nat)
    (h : address + data.length ≤ mem.length) :
    (writeBytes mem address data).length = mem.length := by
  simp only [writeBytes, List.length_append, List.length_take,
    List.length_drop]
  omega

theorem writeBytes_readback (mem data : List Nat) (address : Nat)
    (h : address + data.length ≤ mem.length) :
    ((writeBytes mem address data).drop address).take data.length = data := by
  have ht : (mem.take address).length = address := by
    simp only [List.length_take]
    omega
  rw [writeBytes, List.append_assoc, List.drop_left' ht, List.take_left]

/-- C8: after `register_panic_error_message m`, `take_panic_message` returns
`some m` and leaves the panic-message slot empty, so a second
`take_panic_message` with no intervening registration returns `none`. -/
theorem panic_message_roundtrip (st : HostState) (m : String) :
    (take_panic_message (register_panic_error_message st m)).1 = some m ∧
    (take_panic_message
      (register_panic_error_message st m)).2.panic_message = none ∧
    (take_panic_message
      (take_panic_message (register_panic_error_message st m)).2).1 = none := by
  simp [take_panic_message, register_panic_error_message]

/-- C3: bounds safety of the memory access layer — an out-of-bounds range
makes `read_memory_into` and `write_memory` fail with the destination
buffer, respectively the memory, untouched; and an in-bounds `write_memory`
followed by `read_memory_into` of the same address and length yields exactly
the bytes written. -/
theorem memory_bounds_safety :
    (∀ (mem dest : List Nat) (address : Nat),
        mem.length < address + dest.length →
        read_memory_into mem address dest =
          (.error "memory read is out of bounds", dest)) ∧
    (∀ (mem data : List Nat) (address : Nat),
        mem.length < address + data.length →
        write_memory mem address data =
          (.error "memory write is out of bounds", mem)) ∧
    (∀ (mem data dest : List Nat) (address : Nat),
        address + data.length ≤ mem.length →
        dest.length = data.length →
        read_memory_into (write_memory mem address data).2 address dest =
          (.ok (), data)) := by
  refine ⟨?_, ?_, ?_⟩
  · intro mem dest address h
    simp only [read_memory_into]
    rw [if_neg (by omega)]
  · intro mem data address h
    simp only [write_memory, write_memory_from]
    rw [if_neg (by omega)]
  · intro mem data dest address h hd
    have hw : (write_memory mem address data).2 = writeBytes mem address data := by
      simp only [write_memory, write_memory_from]
      rw [if_pos h]
    rw [hw]
    simp only [read_memory_into]
    rw [if_pos (by rw [writeBytes_length mem data address h]; omega), hd,
      writeBytes_readback mem data address h]

/-- Closed instantiation of `memory_bounds_safety` at concrete inputs. -/
theorem memory_bounds_safety_witness :
    read_memory_into [1, 2, 3] 2 [9, 9] =
      (.error "memory read is out of bounds", [9, 9]) ∧
    write_memory [1, 2, 3] 2 [7, 7] =
      (.error "memory write is out of bounds", [1, 2, 3]) ∧
    read_memory_into (write_memory [1, 2, 3, 4] 1 [7, 8]).2 1 [0, 0] =
      (.ok (), [7, 8]) :=
  ⟨memory_bounds_safety.1 [1, 2, 3] [9, 9] 2 (by decide),
   memory_bounds_safety.2.1 [1, 2, 3] [7, 7] 2 (by decide),
   memory_bounds_safety.2.2 [1, 2, 3, 4] [7, 8] [0, 0] 1 (by decide)
     (by decide)⟩

/-- C10: `get_global_val` and `get_global_i64` with an instance id absent
from the registry are hard errors, whereas with a present instance id whose
instance lacks a global of the given name they return `Ok(None)`. -/
theorem get_global_absent_instance_vs_absent_global
    (store : SandboxStore) (instance_idx : Nat) (name : String) :
    (store.instances.lookup instance_idx = none →
      (get_global_val store instance_idx name).isHardError = true ∧
      (get_global_i64 store instance_idx name).isHardError = true) ∧
    (∀ entry, store.instances.lookup instance_idx = some entry →
      entry.inst.globals.lookup name = none →
      get_global_val store instance_idx name = .ok none ∧
      get_global_i64 store instance_idx name = .ok none) := by
  constructor
  · intro h
    simp [get_global_val, get_global_i64, SandboxStore.instance_, h,
      HostCallResult.isHardError]
  · intro entry h hg
    simp [get_global_val, get_global_i64, SandboxStore.instance_, h,
      SandboxInstance.get_global_val, SandboxInstance.get_global_i64, hg]

/-- Closed instantiation of `get_global_absent_instance_vs_absent_global`:
id 5 is absent from the sample registry, and instance 0 has no global
named `h`. -/
theorem get_global_absent_witness :
    ((get_global_val sampleStore 5 "g").isHardError = true ∧
     (get_global_i64 sampleStore 5 "g").isHardError = true) ∧
    (get_global_val sampleStore 0 "h" = .ok none ∧
     get_global_i64 sampleStore 0 "h" = .ok none) :=
  ⟨(get_global_absent_instance_vs_absent_global sampleStore 5 "g").1
      (by decide),
   (get_global_absent_instance_vs_absent_global sampleStore 0 "h").2
      { inst := sampleInstance, dispatch_thunk := 7 } (by decide) (by decide)⟩

/-- C6 counterexample: `set_global_i64` on an empty registry (instance id 0
absent) is a hard error, so it is not `Ok` with one of the three globals
status codes for every instance id. -/
theorem set_global_i64_missing_instance_cex :
    (set_global_i64 SandboxStore.empty 0 "g" 1).isHardError = true := by
  decide

/-- C6 amended: for every instance id present in the registry,
`set_global_i64` returns `Ok` with one of exactly three status codes —
globals-not-found, globals-ok, or globals-other — and is never a hard
error; an absent instance id, by contrast, is a hard error. -/
theorem set_global_i64_amended (store : SandboxStore) (idx : Nat)
    (name : String) (value : Int) (entry : InstanceEntry)
    (h : store.instances.lookup idx = some entry) :
    set_global_i64 store idx name value = .ok ERROR_GLOBALS_NOT_FOUND ∨
    set_global_i64 store idx name value = .ok ERROR_GLOBALS_OK ∨
    set_global_i64 store idx name value = .ok ERROR_GLOBALS_OTHER := by
  cases h2 : entry.inst.set_global_i64 name value with
  | error e =>
    simp [set_global_i64, SandboxStore.instance_, h, h2]
  | ok o =>
    cases o <;> simp [set_global_i64, SandboxStore.instance_, h, h2]

/-- Closed instantiation of `set_global_i64_amended` at the sample
registry. -/
theorem set_global_i64_amended_witness :
    set_global_i64 sampleStore 0 "g" 9 = .ok ERROR_GLOBALS_NOT_FOUND ∨
    set_global_i64 sampleStore 0 "g" 9 = .ok ERROR_GLOBALS_OK ∨
    set_global_i64 sampleStore 0 "g" 9 = .ok ERROR_GLOBALS_OTHER :=
  set_global_i64_amended sampleStore 0 "g" 9
    { inst := sampleInstance, dispatch_thunk := 7 } (by decide)

/-- C4: status-code totality of `memory_get`/`memory_set` — with a memory id
present in the registry the result is always `Ok` (never a hard error), and
an out-of-range sandbox offset or an out-of-range host buffer yields the
out-of-bounds status code. -/
theorem memory_get_set_status_totality
    (store : SandboxStore) (callerMem : List Nat)
    (memory_id offset ptr len : Nat) (m : SandboxMemory)
    (hm : store.memories.lookup memory_id = some m) :
    ((memory_get store callerMem memory_id offset ptr len).1.isOk = true ∧
     (memory_set store callerMem memory_id offset ptr len).1.isOk = true) ∧
    (m.data.length < offset + len →
      (memory_get store callerMem memory_id offset ptr len).1 =
        .ok ERR_OUT_OF_BOUNDS) ∧
    (offset + len ≤ m.data.length → callerMem.length < ptr + len →
      (memory_get store callerMem memory_id offset ptr len).1 =
        .ok ERR_OUT_OF_BOUNDS) ∧
    (callerMem.length < ptr + len →
      (memory_set store callerMem memory_id offset ptr len).1 =
        .ok ERR_OUT_OF_BOUNDS) ∧
    (ptr + len ≤ callerMem.length → m.data.length < offset + len →
      (memory_set store callerMem memory_id offset ptr len).1 =
        .ok ERR_OUT_OF_BOUNDS) := by
  have hmem : store.memory memory_id = .ok m := by
    simp [SandboxStore.memory, hm]
  have hget : memory_get store callerMem memory_id offset ptr len =
      match m.read offset len with
      | .error _ => (.ok ERR_OUT_OF_BOUNDS, callerMem)
      | .ok buffer =>
        match write_memory_from callerMem ptr buffer with
        | .error _ => (.ok ERR_OUT_OF_BOUNDS, callerMem)
        | .ok mem2 => (.ok ERR_OK, mem2) := by
    simp [memory_get, hmem]
  have hset : memory_set store callerMem memory_id offset ptr len =
      match read_memory callerMem ptr len with
      | .error _ => (.ok ERR_OUT_OF_BOUNDS, store)
      | .ok buffer =>
        match m.write_from offset buffer with
        | .error _ => (.ok ERR_OUT_OF_BOUNDS, store)
        | .ok m2 => (.ok ERR_OK, store.setMemory memory_id m2) := by
    simp [memory_set, hmem]
  refine ⟨⟨?_, ?_⟩, ?_, ?_, ?_, ?_⟩
  · rcases hr : m.read offset len with e | buffer
    · simp [hget, hr, HostCallResult.isOk]
    · rcases hw : write_memory_from callerMem ptr buffer with e2 | mem2 <;>
        simp [hget, hr, hw, HostCallResult.isOk]
  · rcases hr : read_memory callerMem ptr len with e | buffer
    · simp [hset, hr, HostCallResult.isOk]
    · rcases hw : m.write_from offset buffer with e2 | m2 <;>
        simp [hset, hr, hw, HostCallResult.isOk]
  · intro h
    have hr : m.read offset len = .error () := by
      simp only [SandboxMemory.read]
      rw [if_neg (by omega)]
    simp [hget, hr]
  · intro h1 h2
    have hr : m.read offset len = .ok ((m.data.drop offset).take len) := by
      simp only [SandboxMemory.read]
      rw [if_pos h1]
    have hlen : ((m.data.drop offset).take len).length = len := by
      simp only [List.length_take, List.length_drop]
      omega
    have hw : write_memory_from callerMem ptr ((m.data.drop offset).take len) =
        .error "memory write is out of bounds" := by
      simp only [write_memory_from, hlen]
      rw [if_neg (by omega)]
    simp [hget, hr, hw]
  · intro h
    have hr : read_memory callerMem ptr len = .error
        "memory read is out of bounds" := by
      simp only [read_memory]
      rw [if_neg (by omega)]
    simp [hset, hr]
  · intro h1 h2
    have hr : read_memory callerMem ptr len =
        .ok ((callerMem.drop ptr).take len) := by
      simp only [read_memory]
      rw [if_pos h1]
    have hlen : ((callerMem.drop ptr).take len).length = len := by
      simp only [List.length_take, List.length_drop]
      omega
    have hw : m.write_from offset ((callerMem.drop ptr).take len) =
        .error () := by
      simp only [SandboxMemory.write_from, hlen]
      rw [if_neg (by omega)]
    simp [hset, hr, hw]

/-- Closed instantiation of `memory_get_set_status_totality`: a sandbox
offset past the 4-byte sample memory and a host buffer past a 2-byte
calling-module memory both yield the out-of-bounds status code. -/
theorem memory_get_set_status_totality_witness :
    (memory_get sampleStore [9, 9] 0 3 0 2).1 = .ok ERR_OUT_OF_BOUNDS ∧
    (memory_set sampleStore [9, 9] 0 0 1 2).1 = .ok ERR_OUT_OF_BOUNDS :=
  ⟨(memory_get_set_status_totality sampleStore [9, 9] 0 3 0 2
      { data := [0, 0, 0, 0] } (by decide)).2.1 (by decide),
   (memory_get_set_status_totality sampleStore [9, 9] 0 0 1 2
      { data := [0, 0, 0, 0] } (by decide)).2.2.2.1 (by decide)⟩

/-- C5: an `invoke` on a valid instance whose successfully produced return
value encodes to more bytes than `return_val_len` is a hard error ("Return
value buffer is too small"), not a status code, and the calling module's
memory is left untouched. -/
theorem invoke_return_buffer_too_small
    (enc : Value → List Nat) (args : List Value)
    (inv : SandboxInstance → Func → Nat → Except Unit (Option Value))
    (store : SandboxStore) (callerMem : List Nat)
    (instance_id return_val return_val_len state : Nat)
    (entry : InstanceEntry) (val : Value)
    (hentry : store.instances.lookup instance_id = some entry)
    (hinv : inv entry.inst entry.dispatch_thunk state = .ok (some val))
    (hlen : return_val_len < (enc val).length) :
    invoke enc (some args) inv store callerMem instance_id return_val
        return_val_len state =
      (.hostError "Return value buffer is too small", callerMem) := by
  simp only [invoke, SandboxStore.instance_, SandboxStore.dispatch_thunk,
    hentry, hinv]
  rw [if_pos hlen]

/-- Closed instantiation of `invoke_return_buffer_too_small`: a 3-byte
encoded return value against a 2-byte return buffer. -/
theorem invoke_return_buffer_too_small_witness :
    invoke (fun _ => [1, 2, 3]) (some []) (fun _ _ _ => .ok (some (.i64 5)))
        sampleStore [0, 0, 0, 0] 0 0 2 0 =
      (.hostError "Return value buffer is too small", [0, 0, 0, 0]) :=
  invoke_return_buffer_too_small (fun _ => [1, 2, 3]) []
    (fun _ _ _ => .ok (some (.i64 5))) sampleStore [0, 0, 0, 0] 0 0 2 0
    { inst := sampleInstance, dispatch_thunk := 7 } (.i64 5) (by decide) rfl
    (by decide)

/-- C9: an `invoke` whose encoded return value fits `return_val_len` but
whose write into the calling module's memory at `return_val` goes out of
bounds is a hard error ("cannot write return value"), not a status code. -/
theorem invoke_write_failure_hard_error
    (enc : Value → List Nat) (args : List Value)
    (inv : SandboxInstance → Func → Nat → Except Unit (Option Value))
    (store : SandboxStore) (callerMem : List Nat)
    (instance_id return_val return_val_len state : Nat)
    (entry : InstanceEntry) (val : Value)
    (hentry : store.instances.lookup instance_id = some entry)
    (hinv : inv entry.inst entry.dispatch_thunk state = .ok (some val))
    (hfits : (enc val).length ≤ return_val_len)
    (hoob : callerMem.length < return_val + (enc val).length) :
    invoke enc (some args) inv store callerMem instance_id return_val
        return_val_len state =
      (.hostError "cannot write return value", callerMem) := by
  have hw : write_memory callerMem return_val (enc val) =
      (.error "memory write is out of bounds", callerMem) := by
    simp only [write_memory, write_memory_from]
    rw [if_neg (by omega)]
  simp only [invoke, SandboxStore.instance_, SandboxStore.dispatch_thunk,
    hentry, hinv]
  rw [if_neg (by omega), hw]

/-- Closed instantiation of `invoke_write_failure_hard_error`: a 2-byte
encoded value fitting a 4-byte declared buffer but written past the end of
a 3-byte memory. -/
theorem invoke_write_failure_hard_error_witness :
    invoke (fun _ => [1, 2]) (some []) (fun _ _ _ => .ok (some (.i64 5)))
        sampleStore [0, 0, 0] 0 2 4 0 =
      (.hostError "cannot write return value", [0, 0, 0]) :=
  invoke_write_failure_hard_error (fun _ => [1, 2]) []
    (fun _ _ _ => .ok (some (.i64 5))) sampleStore [0, 0, 0] 0 2 4 0
    { inst := sampleInstance, dispatch_thunk := 7 } (.i64 5) (by decide) rfl
    (by decide) (by decide)

/-- C7: `SandboxContext::invoke` calls the dispatch thunk exactly once, at
the four-`I32` argument list [arguments pointer, arguments length, state
tag, function index] (so two thunks agreeing there are indistinguishable);
a single `I64` result is passed through, a trap surfaces as a call error
carrying the engine's message, and any other result value is the
"unexpected result" call error. -/
theorem sandbox_context_invoke_spec
    (callExt : List WVal → Except String WVal)
    (state invoke_args_ptr invoke_args_len func_idx : Nat) :
    (∀ callExt2 : List WVal → Except String WVal,
      callExt (dispatchThunkArgs invoke_args_ptr invoke_args_len state
          func_idx) =
        callExt2 (dispatchThunkArgs invoke_args_ptr invoke_args_len state
          func_idx) →
      sandboxContext_invoke callExt state invoke_args_ptr invoke_args_len
          func_idx =
        sandboxContext_invoke callExt2 state invoke_args_ptr invoke_args_len
          func_idx) ∧
    (∀ v : Int,
      callExt (dispatchThunkArgs invoke_args_ptr invoke_args_len state
          func_idx) = .ok (WVal.I64 v) →
      sandboxContext_invoke callExt state invoke_args_ptr invoke_args_len
          func_idx = .ok v) ∧
    (∀ msg : String,
      callExt (dispatchThunkArgs invoke_args_ptr invoke_args_len state
          func_idx) = .error msg →
      sandboxContext_invoke callExt state invoke_args_ptr invoke_args_len
          func_idx = .error msg) ∧
    (∀ rv : WVal,
      callExt (dispatchThunkArgs invoke_args_ptr invoke_args_len state
          func_idx) = .ok rv →
      rv.i64 = none →
      sandboxContext_invoke callExt state invoke_args_ptr invoke_args_len
          func_idx =
        .error "Supervisor function returned unexpected result!") := by
  refine ⟨?_, ?_, ?_, ?_⟩
  · intro callExt2 h
    simp only [sandboxContext_invoke, h]
  · intro v h
    simp [sandboxContext_invoke, h, WVal.i64]
  · intro msg h
    simp [sandboxContext_invoke, h]
  · intro rv h hrv
    simp [sandboxContext_invoke, h, hrv]

/-- Closed instantiation of `sandbox_context_invoke_spec` at three concrete
thunks: one returning `I64 42`, one trapping, one returning an `I32`. -/
theorem sandbox_context_invoke_spec_witness :
    sandboxContext_invoke (fun _ => .ok (WVal.I64 42)) 3 10 20 5 = .ok 42 ∧
    sandboxContext_invoke (fun _ => .error "trap") 3 10 20 5 =
      .error "trap" ∧
    sandboxContext_invoke (fun _ => .ok (WVal.I32 1)) 3 10 20 5 =
      .error "Supervisor function returned unexpected result!" :=
  ⟨(sandbox_context_invoke_spec (fun _ => .ok (WVal.I64 42)) 3 10 20 5).2.1
      42 rfl,
   (sandbox_context_invoke_spec (fun _ => .error "trap") 3 10 20 5).2.2.1
      "trap" rfl,
   (sandbox_context_invoke_spec (fun _ => .ok (WVal.I32 1)) 3 10 20 5).2.2.2
      (WVal.I32 1) rfl (by decide)⟩

/-- C2 counterexample: with a table whose entry 0 is not a function
reference, `instance_new` does not return `Ok` with the module-error status
code — it is a hard error. -/
theorem instance_new_nonfunc_cex :
    (instance_new (some [TableEntry.externRef]) 0 (fun _ => .ok ())
        (fun s _ _ => (.errOther, s)) 0 sampleHostState).1 ≠
      HostCallResult.ok ERR_MODULE ∧
    (instance_new (some [TableEntry.externRef]) 0 (fun _ => .ok ())
        (fun s _ _ => (.errOther, s)) 0 sampleHostState).1.isHardError =
      true := by
  constructor
  · intro h
    simp [instance_new, sampleHostState] at h
  · rfl

/-- C2 amended: `instance_new` with a `dispatch_thunk_id` whose table entry
is not a live function reference returns a hard error (not a status code),
and the host state — in particular the registry — is unchanged, so no
instance is registered and no instance id is consumed. -/
theorem instance_new_nonfunc_amended
    (t : Table) (id : Nat) (decodeEnv : SandboxStore → Except Unit Unit)
    (instantiateExt : SandboxStore → Func → Nat →
      InstantiateOutcome × SandboxStore)
    (state : Nat) (st : HostState) (entry : TableEntry)
    (hget : t[id]? = some entry)
    (hnf : entry = TableEntry.externRef ∨ entry = TableEntry.funcRef none) :
    (instance_new (some t) id decodeEnv instantiateExt state st).2 = st ∧
    (instance_new (some t) id decodeEnv instantiateExt state
        st).1.isHardError = true := by
  rcases hnf with h | h <;> subst h <;>
    simp [instance_new, hget, HostCallResult.isHardError]

/-- Closed instantiation of `instance_new_nonfunc_amended` at a one-entry
table holding an externref. -/
theorem instance_new_nonfunc_amended_witness :
    (instance_new (some [TableEntry.externRef]) 0 (fun _ => .ok ())
        (fun s _ _ => (.errOther, s)) 0 sampleHostState).2 =
      sampleHostState ∧
    (instance_new (some [TableEntry.externRef]) 0 (fun _ => .ok ())
        (fun s _ _ => (.errOther, s)) 0 sampleHostState).1.isHardError =
      true :=
  instance_new_nonfunc_amended [TableEntry.externRef] 0 (fun _ => .ok ())
    (fun s _ _ => (.errOther, s)) 0 sampleHostState TableEntry.externRef
    rfl (Or.inl rfl)

/-- C1: restoration invariant — starting from a host state whose allocator
and sandbox-registry slots are present, every `allocate_memory`,
`deallocate_memory` and `instance_new` call leaves both slots present
(`some`) the moment control leaves the operation, whatever the external
allocator calls return, and whatever the table lookup, environment decode
and instantiation do — including an instantiation that panics partway
through (the `panicked` outcome, re-raised only after the registry is put
back). -/
theorem restoration_invariant
    (st : HostState) (mem : List Nat) (size ptr state dtid : Nat)
    (allocateExt : FreeingBumpHeapAllocator → List Nat → Nat →
      Except String Nat × FreeingBumpHeapAllocator × List Nat)
    (deallocateExt : FreeingBumpHeapAllocator → List Nat → Nat →
      Except String Unit × FreeingBumpHeapAllocator × List Nat)
    (table : Option Table) (decodeEnv : SandboxStore → Except Unit Unit)
    (instantiateExt : SandboxStore → Func → Nat →
      InstantiateOutcome × SandboxStore)
    (hA : st.allocator.isSome = true) (hS : st.sandbox_store.isSome = true) :
    ((allocate_memory allocateExt size st mem).2.1.allocator.isSome = true ∧
     (allocate_memory allocateExt size st
        mem).2.1.sandbox_store.isSome = true) ∧
    ((deallocate_memory deallocateExt ptr st mem).2.1.allocator.isSome =
        true ∧
     (deallocate_memory deallocateExt ptr st
        mem).2.1.sandbox_store.isSome = true) ∧
    ((instance_new table dtid decodeEnv instantiateExt state
        st).2.allocator.isSome = true ∧
     (instance_new table dtid decodeEnv instantiateExt state
        st).2.sandbox_store.isSome = true) := by
  obtain ⟨alloc, ha⟩ := Option.isSome_iff_exists.mp hA
  obtain ⟨store0, hs⟩ := Option.isSome_iff_exists.mp hS
  refine ⟨?_, ?_, ?_⟩
  · rcases hres : allocateExt alloc mem size with ⟨res, alloc2, mem2⟩
    rcases res with r | e <;>
      simp [allocate_memory, ha, hs, hres]
  · rcases hres : deallocateExt alloc mem ptr with ⟨res, alloc2, mem2⟩
    rcases res with r | e <;>
      simp [deallocate_memory, ha, hs, hres]
  · rcases table with _ | t
    · simp [instance_new, ha, hs]
    · rcases hg : t[dtid]? with _ | entry
      · simp [instance_new, hg, ha, hs]
      · rcases entry with f | _
        · rcases f with _ | thunk
          · simp [instance_new, hg, ha, hs]
          · rcases hd : decodeEnv store0 with e | u
            · simp [instance_new, hg, hs, hd, ha]
            · rcases hi : instantiateExt store0 thunk state with
                ⟨outcome, store1⟩
              rcases outcome with inst | _ | _ | _ <;>
                simp [instance_new, hg, hs, hd, hi, ha,
                  SandboxStore.register]
        · simp [instance_new, hg, ha, hs]

/-- Closed instantiation of `restoration_invariant`: the sample host state,
trivial external allocator calls, and an instantiation that panics — both
slots are present after each of the three calls. -/
theorem restoration_invariant_witness :
    ((allocate_memory (fun a m _ => (.ok 0, a, m)) 8 sampleHostState
        []).2.1.allocator.isSome = true ∧
     (allocate_memory (fun a m _ => (.ok 0, a, m)) 8 sampleHostState
        []).2.1.sandbox_store.isSome = true) ∧
    ((deallocate_memory (fun a m _ => (.error "invalid pointer", a, m)) 16
        sampleHostState []).2.1.allocator.isSome = true ∧
     (deallocate_memory (fun a m _ => (.error "invalid pointer", a, m)) 16
        sampleHostState []).2.1.sandbox_store.isSome = true) ∧
    ((instance_new (some [TableEntry.funcRef (some 7)]) 0 (fun _ => .ok ())
        (fun s _ _ => (.panicked, s)) 0
        sampleHostState).2.allocator.isSome = true ∧
     (instance_new (some [TableEntry.funcRef (some 7)]) 0 (fun _ => .ok ())
        (fun s _ _ => (.panicked, s)) 0
        sampleHostState).2.sandbox_store.isSome = true) :=
  restoration_invariant sampleHostState [] 8 16 0 0
    (fun a m _ => (.ok 0, a, m))
    (fun a m _ => (.error "invalid pointer", a, m))
    (some [TableEntry.funcRef (some 7)]) (fun _ => .ok ())
    (fun s _ _ => (.panicked, s)) (by decide) (by decide)

end Host
